import Mathlib

/-!
Shallow embedding of monoterm's escape-sequence filter (`src/main.rs`).

Bytes are modelled as `Nat` (the scanner and rewriter only ever compare
them against constants below 256 and append them to lists, so no modular
arithmetic is needed).  Byte constants used throughout:
ESC = 27, `[` = 91, `m` = 109, `;` = 59, `0`..`9` = 48..57, `+` = 43.

The Rust `write` callback is modelled by returning the list of emitted
bytes alongside the updated state.
-/

namespace Monoterm

/-- Rust enum `SgrState { Init, AfterEsc, AfterCsi }` from the source. -/
inductive SgrState
  | Init
  | AfterEsc
  | AfterCsi
deriving DecidableEq, Repr

/-- Rust enum `Intensity { High, Low, Normal }` from the source. -/
inductive Intensity
  | High
  | Low
  | Normal
deriving DecidableEq, Repr

/-- Rust struct `Filter` from the source: configuration, scanner state, the four
semantic-model fields, and the parameter buffer. -/
structure Filter where
  bold_colors : Bool
  state : SgrState
  background_set : Bool
  video_reversed : Bool
  foreground_set : Bool
  intensity : Intensity
  buffer : List Nat
deriving DecidableEq, Repr

/-- Constructor `Filter::new(bold_colors)` from the source. -/
def Filter.new (bold_colors : Bool) : Filter where
  bold_colors := bold_colors
  state := SgrState.Init
  background_set := false
  video_reversed := false
  foreground_set := false
  intensity := Intensity.Normal
  buffer := []

/-- Constant `SGR_MAX_LEN` from the source. -/
def SGR_MAX_LEN : Nat := 128

/-- Method `Filter::parent_video_reversed`: `self.background_set != self.video_reversed`. -/
def Filter.parent_video_reversed (f : Filter) : Bool :=
  f.background_set != f.video_reversed

/-- Method `Filter::parent_intensity`: report `High` when intensity is `Normal`,
bold colors are enabled and a foreground color is set; otherwise the stored
intensity. -/
def Filter.parent_intensity (f : Filter) : Intensity :=
  if f.intensity = Intensity.Normal ∧ f.bold_colors = true ∧ f.foreground_set = true then
    Intensity.High
  else
    f.intensity

/-- ASCII decimal digit test on a byte. -/
def isDigit (b : Nat) : Bool :=
  decide (48 ≤ b ∧ b ≤ 57)

/-- Numeric value of a list of ASCII digit bytes (most significant first). -/
def digitsVal (ds : List Nat) : Nat :=
  ds.foldl (fun a b => a * 10 + (b - 48)) 0

/-- Rust's `str::from_utf8(arg).ok()?.parse::<u8>().ok()` on a byte slice:
an optional leading `+` followed by a nonempty run of ASCII digits whose
value fits in a `u8`; anything else (empty rest, non-digit byte, invalid
UTF-8, overflow) yields `none`. -/
def parseU8 (arg : List Nat) : Option Nat :=
  let ds := if arg.head? = some 43 then arg.tail else arg
  if ds ≠ [] ∧ ds.all isDigit = true ∧ digitsVal ds ≤ 255 then some (digitsVal ds) else none

/-- The per-token parse in `Filter::handle_sgr`: an empty token means `0`,
otherwise the `u8` parse of its bytes. -/
def parseArg (arg : List Nat) : Option Nat :=
  match arg with
  | [] => some 0
  | _ => parseU8 arg

/-- Helper `skip_38_48` from the source, on the list of not-yet-dispatched tokens:
it always pulls the next token to inspect it; if that token parses as `5`
it pulls one more, if it parses as `2` it pulls three more, and otherwise
it pulls nothing further.  Returns the tokens left for the main loop. -/
def skip_38_48 (ts : List (List Nat)) : List (List Nat) :=
  match ts with
  | [] => []
  | t :: rest =>
    match parseArg t with
    | some 5 => rest.drop 1
    | some 2 => rest.drop 3
    | _ => rest

/-- Lemma: `skip_38_48` never lengthens the token list (used for termination of
the dispatch loop). -/
theorem skip_38_48_length (ts : List (List Nat)) : (skip_38_48 ts).length ≤ ts.length := by
  unfold skip_38_48
  split
  · simp
  · split <;> simp <;> omega

/-- The state threaded through the `while let` loop of `Filter::handle_sgr`:
the filter itself, the local `reversed` and `intensity` variables, the
`any_written` flag and the bytes written so far. -/
structure SgrScan where
  f : Filter
  reversed : Bool
  intensity : Intensity
  any_written : Bool
  out : List Nat
deriving DecidableEq, Repr

/-- The `write_arg` closure of `Filter::handle_sgr`: the first written
argument is prefixed with `ESC [`, later ones with `;`. -/
def write_arg (any_written : Bool) (out : List Nat) (arg : List Nat) : Bool × List Nat :=
  (true, out ++ (if any_written then [59] else [27, 91]) ++ arg)

/-- The token-dispatch loop of `Filter::handle_sgr`, branch for branch in
the source's match order (`0`, `1`, `2`, `22`, `30..=37 | 90..=97`, `38`,
`39`, `58 | 59`, `7`, `27`, `40..=47`, `48`, `49`, `100..=107`, default). -/
def sgrLoop (ts : List (List Nat)) (s : SgrScan) : SgrScan :=
  match ts with
  | [] => s
  | t :: rest =>
    match parseArg t with
    | some 0 =>
        sgrLoop rest
          { f := { s.f with
              background_set := false
              video_reversed := false
              foreground_set := false
              intensity := Intensity.Normal }
            reversed := false
            intensity := Intensity.Normal
            any_written := (write_arg s.any_written s.out [48]).1
            out := (write_arg s.any_written s.out [48]).2 }
    | some 1 => sgrLoop rest { s with f := { s.f with intensity := Intensity.High } }
    | some 2 => sgrLoop rest { s with f := { s.f with intensity := Intensity.Low } }
    | some 22 => sgrLoop rest { s with f := { s.f with intensity := Intensity.Normal } }
    | some n =>
        if (30 ≤ n ∧ n ≤ 37) ∨ (90 ≤ n ∧ n ≤ 97) then
          sgrLoop rest { s with f := { s.f with foreground_set := true } }
        else if n = 38 then
          sgrLoop (skip_38_48 rest) { s with f := { s.f with foreground_set := true } }
        else if n = 39 then
          sgrLoop rest { s with f := { s.f with foreground_set := false } }
        else if n = 58 ∨ n = 59 then
          sgrLoop rest s
        else if n = 7 then
          sgrLoop rest { s with f := { s.f with video_reversed := true } }
        else if n = 27 then
          sgrLoop rest { s with f := { s.f with video_reversed := false } }
        else if 40 ≤ n ∧ n ≤ 47 then
          sgrLoop rest { s with f := { s.f with background_set := true } }
        else if n = 48 then
          sgrLoop (skip_38_48 rest) { s with f := { s.f with background_set := true } }
        else if n = 49 then
          sgrLoop rest { s with f := { s.f with background_set := false } }
        else if 100 ≤ n ∧ n ≤ 107 then
          sgrLoop rest { s with f := { s.f with background_set := true } }
        else
          sgrLoop rest { s with
            any_written := (write_arg s.any_written s.out t).1
            out := (write_arg s.any_written s.out t).2 }
    | none =>
        sgrLoop rest { s with
          any_written := (write_arg s.any_written s.out t).1
          out := (write_arg s.any_written s.out t).2 }
termination_by ts.length
decreasing_by
  all_goals simp
  all_goals (have h := skip_38_48_length rest; omega)

/-- Method `Filter::handle_sgr`: split the buffer on `;`, run the dispatch loop,
then append the reverse-video and intensity corrections and the final `m`
when anything was written. -/
def Filter.handle_sgr (f : Filter) : Filter × List Nat :=
  let s := sgrLoop (f.buffer.splitOn 59)
    { f := f
      reversed := f.parent_video_reversed
      intensity := f.parent_intensity
      any_written := false
      out := [] }
  let w1 :=
    if s.f.parent_video_reversed ≠ s.reversed then
      write_arg s.any_written s.out (if s.f.parent_video_reversed then [55] else [50, 55])
    else
      (s.any_written, s.out)
  let w2 :=
    if s.f.parent_intensity ≠ s.intensity then
      write_arg w1.1 w1.2
        (match s.f.parent_intensity with
         | Intensity.High => [49]
         | Intensity.Low => [50]
         | Intensity.Normal => [50, 50])
    else
      w1
  (s.f, if w2.1 then w2.2 ++ [109] else w2.2)

/-- Method `Filter::handle_byte`: the escape-scanner state machine. -/
def Filter.handle_byte (f : Filter) (b : Nat) : Filter × List Nat :=
  match f.state with
  | SgrState.Init =>
      if b = 27 then ({ f with state := SgrState.AfterEsc }, [])
      else (f, [b])
  | SgrState.AfterEsc =>
      if b = 91 then ({ f with state := SgrState.AfterCsi, buffer := [] }, [])
      else ({ f with state := SgrState.Init }, [27, b])
  | SgrState.AfterCsi =>
      if b = 109 then Filter.handle_sgr { f with state := SgrState.Init }
      else if ((48 ≤ b ∧ b ≤ 57) ∨ b = 59) ∧ f.buffer.length < SGR_MAX_LEN then
        ({ f with buffer := f.buffer ++ [b] }, [])
      else
        ({ f with state := SgrState.Init }, [27, 91] ++ f.buffer ++ [b])

/-- Hook `on_child_data` from the `filterm::Filter` impl: feed each byte of the
chunk to `handle_byte`, concatenating everything passed to `parent_write`. -/
def on_child_data (f : Filter) (data : List Nat) : Filter × List Nat :=
  match data with
  | [] => (f, [])
  | b :: rest =>
      ((on_child_data (f.handle_byte b).1 rest).1,
       (f.handle_byte b).2 ++ (on_child_data (f.handle_byte b).1 rest).2)

/-- Sequential delivery of a child's byte stream in chunks: one
`on_child_data` call per chunk, outputs concatenated in call order. -/
def processChunks (f : Filter) (chunks : List (List Nat)) : Filter × List Nat :=
  match chunks with
  | [] => (f, [])
  | c :: rest =>
      ((processChunks (on_child_data f c).1 rest).1,
       (on_child_data f c).2 ++ (processChunks (on_child_data f c).1 rest).2)

/-!
Shared helper lemmas about runs of the scanner.
-/

/-- In the `Init` state a non-ESC byte passes through and leaves the filter
untouched. -/
theorem handle_byte_init_pass (f : Filter) (b : Nat)
    (hstate : f.state = SgrState.Init) (hb : b ≠ 27) :
    f.handle_byte b = (f, [b]) := by
  simp [Filter.handle_byte, hstate, hb]

/-- A chunk with no ESC byte passes through an `Init`-state filter unchanged. -/
theorem on_child_data_no_esc (f : Filter) (data : List Nat)
    (hstate : f.state = SgrState.Init) (h : 27 ∉ data) :
    on_child_data f data = (f, data) := by
  induction data with
  | nil => simp [on_child_data]
  | cons b rest ih =>
    have hb : f.handle_byte b = (f, [b]) :=
      handle_byte_init_pass f b hstate (fun hb27 => h (hb27 ▸ List.mem_cons_self b rest))
    have hrest : 27 ∉ rest := fun hmem => h (List.mem_cons_of_mem b hmem)
    simp [on_child_data, hb, ih hrest]

/-- C1: for every byte stream containing no `0x1B` byte, delivered to a
freshly constructed `Filter` in any chunking, the concatenated output
equals the input exactly, byte for byte (and the filter is left in its
initial state). -/
theorem no_esc_identity (bc : Bool) (chunks : List (List Nat))
    (h : ∀ c ∈ chunks, 27 ∉ c) :
    processChunks (Filter.new bc) chunks = (Filter.new bc, chunks.flatten) := by
  induction chunks with
  | nil => simp [processChunks]
  | cons c rest ih =>
    have h1 : on_child_data (Filter.new bc) c = (Filter.new bc, c) :=
      on_child_data_no_esc (Filter.new bc) c rfl (h c (List.mem_cons_self c rest))
    have h2 := ih (fun d hd => h d (List.mem_cons_of_mem c hd))
    simp [processChunks, h1, h2]

/-- Witness for C1 at a concrete chunked stream. -/
theorem no_esc_identity_witness :
    processChunks (Filter.new false) [[72, 105], [33]] = (Filter.new false, [72, 105, 33]) :=
  no_esc_identity false [[72, 105], [33]] (by decide)

/-- C10: output is independent of chunk boundaries: processing the
concatenation of two chunks equals processing them in sequence, with the
outputs concatenated and the states chained. -/
theorem on_child_data_append (f : Filter) (d1 d2 : List Nat) :
    on_child_data f (d1 ++ d2) =
      ((on_child_data (on_child_data f d1).1 d2).1,
       (on_child_data f d1).2 ++ (on_child_data (on_child_data f d1).1 d2).2) := by
  induction d1 generalizing f with
  | nil => simp [on_child_data]
  | cons b rest ih => simp [on_child_data, ih]

/-- The dispatch loop never touches the parameter buffer. -/
theorem sgrLoop_buffer (ts : List (List Nat)) (s : SgrScan) :
    (sgrLoop ts s).f.buffer = s.f.buffer := by
  induction ts, s using sgrLoop.induct <;> simp_all [sgrLoop]
  all_goals (split_ifs <;> first | (exfalso; omega) | simp_all)

/-- Rewriting an SGR sequence never touches the parameter buffer. -/
theorem handle_sgr_buffer (f : Filter) : (Filter.handle_sgr f).1.buffer = f.buffer := by
  simp [Filter.handle_sgr, sgrLoop_buffer]

/-- One scanner step keeps the parameter buffer within `SGR_MAX_LEN`. -/
theorem handle_byte_buffer_le (f : Filter) (b : Nat)
    (h : f.buffer.length ≤ SGR_MAX_LEN) :
    ((f.handle_byte b).1).buffer.length ≤ SGR_MAX_LEN := by
  cases hst : f.state <;> simp [Filter.handle_byte, hst] <;> split_ifs <;>
    simp_all [handle_sgr_buffer] <;> try omega

/-- Any run from a buffer within the bound stays within the bound. -/
theorem on_child_data_buffer_le (data : List Nat) (f : Filter)
    (h : f.buffer.length ≤ SGR_MAX_LEN) :
    ((on_child_data f data).1).buffer.length ≤ SGR_MAX_LEN := by
  induction data generalizing f with
  | nil => simpa [on_child_data] using h
  | cons b rest ih =>
    simpa [on_child_data] using ih (f.handle_byte b).1 (handle_byte_buffer_le f b h)

/-- C8: for every input byte sequence processed from a fresh `Filter`, the
length of the parameter buffer never exceeds the capacity bound of 128 at
any point during processing (arbitrary `data` covers every prefix of any
stream, hence every intermediate state). -/
theorem buffer_never_exceeds_cap (bc : Bool) (data : List Nat) :
    ((on_child_data (Filter.new bc) data).1).buffer.length ≤ 128 :=
  on_child_data_buffer_le data (Filter.new bc) (by simp [Filter.new, SGR_MAX_LEN])

/-- C9: the four semantic-model fields change only when an SGR sequence is
completed: any single byte other than an `m` arriving in the `AfterCsi`
state leaves `background_set`, `video_reversed`, `foreground_set` and
`intensity` unchanged. -/
theorem handle_byte_semantic_frame (f : Filter) (b : Nat)
    (h : ¬(f.state = SgrState.AfterCsi ∧ b = 109)) :
    (f.handle_byte b).1.background_set = f.background_set ∧
    (f.handle_byte b).1.video_reversed = f.video_reversed ∧
    (f.handle_byte b).1.foreground_set = f.foreground_set ∧
    (f.handle_byte b).1.intensity = f.intensity := by
  cases hst : f.state <;> simp [Filter.handle_byte, hst] <;> split_ifs <;> simp_all

/-- Witness for C9: a printable byte in the initial state. -/
theorem handle_byte_semantic_frame_witness :
    ((Filter.new false).handle_byte 65).1.background_set = (Filter.new false).background_set ∧
    ((Filter.new false).handle_byte 65).1.video_reversed = (Filter.new false).video_reversed ∧
    ((Filter.new false).handle_byte 65).1.foreground_set = (Filter.new false).foreground_set ∧
    ((Filter.new false).handle_byte 65).1.intensity = (Filter.new false).intensity :=
  handle_byte_semantic_frame (Filter.new false) 65 (by decide)

/-- C6: every escape sequence that is not a completed SGR sequence is
forwarded byte-for-byte: after ESC, any byte other than `[` emits the pair
`(0x1B, b)` and returns to the initial state; and a CSI sequence terminated
by any byte that is neither `m` nor a buffered parameter byte emits
`ESC [`, the buffered parameter bytes, and the terminating byte, verbatim. -/
theorem non_sgr_forwarded (f : Filter) (b : Nat) :
    (f.state = SgrState.AfterEsc → b ≠ 91 →
       f.handle_byte b = ({ f with state := SgrState.Init }, [27, b])) ∧
    (f.state = SgrState.AfterCsi → b ≠ 109 →
       ¬(((48 ≤ b ∧ b ≤ 57) ∨ b = 59) ∧ f.buffer.length < SGR_MAX_LEN) →
       f.handle_byte b = ({ f with state := SgrState.Init }, [27, 91] ++ f.buffer ++ [b])) := by
  constructor
  · intro h1 h2
    simp [Filter.handle_byte, h1, h2]
  · intro h1 h2 h3
    simp [Filter.handle_byte, h1, h2, h3]

/-- Witness for C6: an unrecognized escape (`ESC 7`) and the non-SGR
sequence tail of `ESC [ 2 J`. -/
theorem non_sgr_forwarded_witness :
    (Filter.handle_byte
        { bold_colors := false, state := SgrState.AfterEsc, background_set := false,
          video_reversed := false, foreground_set := false, intensity := Intensity.Normal,
          buffer := [] } 55 =
      ({ bold_colors := false, state := SgrState.Init, background_set := false,
         video_reversed := false, foreground_set := false, intensity := Intensity.Normal,
         buffer := [] }, [27, 55])) ∧
    (Filter.handle_byte
        { bold_colors := false, state := SgrState.AfterCsi, background_set := false,
          video_reversed := false, foreground_set := false, intensity := Intensity.Normal,
          buffer := [50] } 74 =
      ({ bold_colors := false, state := SgrState.Init, background_set := false,
         video_reversed := false, foreground_set := false, intensity := Intensity.Normal,
         buffer := [50] }, [27, 91, 50, 74])) :=
  ⟨(non_sgr_forwarded _ 55).1 rfl (by decide),
   (non_sgr_forwarded _ 74).2 rfl (by decide) (by decide)⟩

/-- C7: a digit or `;` arriving when the parameter buffer has already
reached the capacity bound does not fail: the scanner emits `ESC [`, the
buffered prefix, and the over-capacity byte verbatim, and returns to the
initial state. -/
theorem over_capacity_flush (f : Filter) (b : Nat)
    (hs : f.state = SgrState.AfterCsi)
    (hb : (48 ≤ b ∧ b ≤ 57) ∨ b = 59)
    (hlen : f.buffer.length = 128) :
    f.handle_byte b = ({ f with state := SgrState.Init }, [27, 91] ++ f.buffer ++ [b]) := by
  have hb109 : b ≠ 109 := by rcases hb with ⟨h1, h2⟩ | h <;> omega
  simp [Filter.handle_byte, hs, hb109, SGR_MAX_LEN, hlen]

/-- Witness for C7: a `5` arriving on a buffer of 128 `0` bytes. -/
theorem over_capacity_flush_witness :
    Filter.handle_byte
        { bold_colors := false, state := SgrState.AfterCsi, background_set := false,
          video_reversed := false, foreground_set := false, intensity := Intensity.Normal,
          buffer := List.replicate 128 48 } 53 =
      ({ bold_colors := false, state := SgrState.Init, background_set := false,
         video_reversed := false, foreground_set := false, intensity := Intensity.Normal,
         buffer := List.replicate 128 48 }, [27, 91] ++ List.replicate 128 48 ++ [53]) :=
  over_capacity_flush _ 53 rfl (by decide) (by simp)

/-- C2: dispatching code 38 (resp. 48) sets `foreground_set` (resp.
`background_set`) to `true` and writes nothing for the token; the
continuation of the loop runs on `skip_38_48 rest`, so a consumed sub-token
is never re-dispatched.  `skip_38_48` always consumes the inspected next
token; beyond it, it consumes exactly one further token when that token is
`5`, exactly three when it is `2`, and none otherwise. -/
theorem sgr_38_48_consume (s : SgrScan) (t : List Nat) (rest : List (List Nat)) :
    (parseArg t = some 38 →
       sgrLoop (t :: rest) s =
         sgrLoop (skip_38_48 rest) { s with f := { s.f with foreground_set := true } }) ∧
    (parseArg t = some 48 →
       sgrLoop (t :: rest) s =
         sgrLoop (skip_38_48 rest) { s with f := { s.f with background_set := true } }) ∧
    (∀ t2 r2, rest = t2 :: r2 →
       skip_38_48 rest =
         if parseArg t2 = some 5 then r2.drop 1
         else if parseArg t2 = some 2 then r2.drop 3
         else r2) ∧
    (rest = [] → skip_38_48 rest = []) := by
  refine ⟨?_, ?_, ?_, ?_⟩
  · intro h
    simp only [sgrLoop, h]
    norm_num
  · intro h
    simp only [sgrLoop, h]
    norm_num
  · intro t2 r2 hr
    subst hr
    unfold skip_38_48
    split <;> simp_all
    split <;> simp_all
  · intro h
    subst h
    rfl

/-- Witness for C2: dispatching `38;5;0` consumes the `5` and the `0` and
resumes at the `41` token. -/
theorem sgr_38_48_consume_witness :
    sgrLoop [[51, 56], [53], [48], [52, 49]]
        { f := Filter.new false, reversed := false, intensity := Intensity.Normal,
          any_written := false, out := [] } =
      sgrLoop [[52, 49]]
        { f := { Filter.new false with foreground_set := true }, reversed := false,
          intensity := Intensity.Normal, any_written := false, out := [] } :=
  (sgr_38_48_consume
      { f := Filter.new false, reversed := false, intensity := Intensity.Normal,
        any_written := false, out := [] }
      [51, 56] [[53], [48], [52, 49]]).1 (by decide)

/-- C4: on a fresh `Filter` (either bold setting), `ESC [ 4 1 m` yields
exactly `ESC [ 7 m`, and a following `ESC [ 4 9 m` yields exactly
`ESC [ 2 7 m`. -/
theorem red_background_reverse :
    ((on_child_data (Filter.new false) [27, 91, 52, 49, 109]).2 = [27, 91, 55, 109] ∧
     (on_child_data (on_child_data (Filter.new false) [27, 91, 52, 49, 109]).1
        [27, 91, 52, 57, 109]).2 = [27, 91, 50, 55, 109]) ∧
    ((on_child_data (Filter.new true) [27, 91, 52, 49, 109]).2 = [27, 91, 55, 109] ∧
     (on_child_data (on_child_data (Filter.new true) [27, 91, 52, 49, 109]).1
        [27, 91, 52, 57, 109]).2 = [27, 91, 50, 55, 109]) := by
  refine ⟨⟨?_, ?_⟩, ?_, ?_⟩ <;>
    simp [on_child_data, Filter.handle_byte, Filter.handle_sgr, Filter.new, sgrLoop,
      parseArg, parseU8, isDigit, digitsVal, write_arg, skip_38_48,
      Filter.parent_video_reversed, Filter.parent_intensity, SGR_MAX_LEN,
      List.splitOn, List.splitOnP, List.splitOnP.go]

/-- C5: on a fresh `Filter`, `ESC [ 3 1 m` yields no output bytes with bold
colors disabled, and yields exactly `ESC [ 1 m` with bold colors enabled. -/
theorem red_foreground_bold :
    (on_child_data (Filter.new false) [27, 91, 51, 49, 109]).2 = [] ∧
    (on_child_data (Filter.new true) [27, 91, 51, 49, 109]).2 = [27, 91, 49, 109] := by
  constructor <;>
    simp [on_child_data, Filter.handle_byte, Filter.handle_sgr, Filter.new, sgrLoop,
      parseArg, parseU8, isDigit, digitsVal, write_arg, skip_38_48,
      Filter.parent_video_reversed, Filter.parent_intensity, SGR_MAX_LEN,
      List.splitOn, List.splitOnP, List.splitOnP.go]

/-- Whether the dispatch loop dispatches a reset token (code `0`) anywhere
in the token list, following exactly the loop structure of `sgrLoop`
(tokens consumed by `skip_38_48` for codes 38/48 are not dispatched).  The
loop locals `reversed` and `intensity` are overwritten exactly at
dispatched resets, so this predicate characterizes when they still hold
the pre-sequence snapshot at the end of the loop. -/
def resetDispatched (ts : List (List Nat)) : Bool :=
  match ts with
  | [] => false
  | t :: rest =>
    match parseArg t with
    | some 0 => true
    | some 1 => resetDispatched rest
    | some 2 => resetDispatched rest
    | some 22 => resetDispatched rest
    | some n =>
        if (30 ≤ n ∧ n ≤ 37) ∨ (90 ≤ n ∧ n ≤ 97) then resetDispatched rest
        else if n = 38 then resetDispatched (skip_38_48 rest)
        else if n = 39 then resetDispatched rest
        else if n = 58 ∨ n = 59 then resetDispatched rest
        else if n = 7 then resetDispatched rest
        else if n = 27 then resetDispatched rest
        else if 40 ≤ n ∧ n ≤ 47 then resetDispatched rest
        else if n = 48 then resetDispatched (skip_38_48 rest)
        else if n = 49 then resetDispatched rest
        else if 100 ≤ n ∧ n ≤ 107 then resetDispatched rest
        else resetDispatched rest
    | none => resetDispatched rest
termination_by ts.length
decreasing_by
  all_goals simp
  all_goals (have h := skip_38_48_length rest; omega)

/-- The loop locals after the dispatch loop: unchanged from their initial
snapshot unless a reset token was dispatched, in which case they hold the
baseline values `false` and `Normal`. -/
theorem sgrLoop_locals (ts : List (List Nat)) (s : SgrScan) :
    (sgrLoop ts s).reversed = (if resetDispatched ts then false else s.reversed) ∧
    (sgrLoop ts s).intensity = (if resetDispatched ts then Intensity.Normal else s.intensity) := by
  induction ts, s using sgrLoop.induct <;> simp_all [sgrLoop, resetDispatched]
  all_goals (split_ifs <;> first | (exfalso; omega) | simp_all)

/-- C3 (amended): the epilogue of `handle_sgr` compares `reverse1` and
`intensity1`, recomputed from the post-processing model, against reference
values that are the pre-sequence snapshots except that a dispatched reset
token `0` re-snapshots them to the baseline (`false`, `Normal`): it appends
`7` or `27` iff `reverse1` differs from that reference, and appends `1`,
`2`, or `22` per the new value iff `intensity1` differs from that
reference. -/
theorem handle_sgr_epilogue (f : Filter) :
    (let ts := f.buffer.splitOn 59
     let s := sgrLoop ts
       { f := f, reversed := f.parent_video_reversed, intensity := f.parent_intensity,
         any_written := false, out := [] }
     let r0 : Bool := if resetDispatched ts then false else f.parent_video_reversed
     let i0 : Intensity := if resetDispatched ts then Intensity.Normal else f.parent_intensity
     let w1 := if s.f.parent_video_reversed ≠ r0 then
         write_arg s.any_written s.out (if s.f.parent_video_reversed then [55] else [50, 55])
       else (s.any_written, s.out)
     let w2 := if s.f.parent_intensity ≠ i0 then
         write_arg w1.1 w1.2
           (match s.f.parent_intensity with
            | Intensity.High => [49]
            | Intensity.Low => [50]
            | Intensity.Normal => [50, 50])
       else w1
     s.reversed = r0 ∧ s.intensity = i0 ∧
       f.handle_sgr = (s.f, if w2.1 then w2.2 ++ [109] else w2.2)) := by
  have h := sgrLoop_locals (f.buffer.splitOn 59)
    { f := f, reversed := f.parent_video_reversed, intensity := f.parent_intensity,
      any_written := false, out := [] }
  refine ⟨h.1, h.2, ?_⟩
  simp only [Filter.handle_sgr]
  rw [← h.1, ← h.2]

/-- C3 counterexample: take the pre-sequence model with `background_set`
(so the pre-sequence derived reverse is `true`) and the parameter list `0`.
The derived reverse recomputed after processing is `false`, different from
the pre-sequence snapshot, yet the rewritten output is exactly
`ESC [ 0 m`: no `27` token is appended, contradicting the claim that a `7`
or `27` token is appended whenever `reverse1 != reverse0` with `reverse0`
taken from the pre-sequence model. -/
theorem sgr_snapshot_counterexample :
    (Filter.handle_sgr
        { bold_colors := false, state := SgrState.Init, background_set := true,
          video_reversed := false, foreground_set := false, intensity := Intensity.Normal,
          buffer := [48] }).1.parent_video_reversed = false ∧
    Filter.parent_video_reversed
        { bold_colors := false, state := SgrState.Init, background_set := true,
          video_reversed := false, foreground_set := false, intensity := Intensity.Normal,
          buffer := [48] } = true ∧
    (Filter.handle_sgr
        { bold_colors := false, state := SgrState.Init, background_set := true,
          video_reversed := false, foreground_set := false, intensity := Intensity.Normal,
          buffer := [48] }).2 = [27, 91, 48, 109] := by
  refine ⟨?_, ?_, ?_⟩ <;>
    simp [Filter.handle_sgr, sgrLoop, parseArg, parseU8, isDigit, digitsVal, write_arg,
      skip_38_48, Filter.parent_video_reversed, Filter.parent_intensity,
      List.splitOn, List.splitOnP, List.splitOnP.go]

end Monoterm
